import Mathlib

/-!
Verification of the probe-fusion and batch-evaluation core of the
domain-availability checker (`domain-checker.py`).

The external providers (the WHOIS registration-record library and the DNS
resolver) are modelled as inputs: each probe receives the provider's response
as an explicit value of a tagged type covering every way the provider can
answer in the Python source (a record, no record, a `PywhoisError`, any other
exception; an answer list, `NXDOMAIN`, any other exception).  The probes,
the fusion logic and the batch aggregation are translated statement by
statement from the source.
-/

namespace DomainChecker

/-- Python truthiness of an optional string-valued field of a WHOIS record:
`hasattr(data, f) and data.f` is true exactly when the field is present and
non-empty. -/
def truthy : Option String → Bool
  | some s => !s.isEmpty
  | none => false

/-- What `whois.whois(domain)` can deliver to `_check_whois`:
`noData` is a `None` return; `record` is a record object whose optional
fields model attribute presence (`none` = attribute absent, `some ""` =
present but falsy) together with its full textual form `raw`
(`str(whois_data)`); `parserError` is a raised `whois.parser.PywhoisError`;
`failure` is any other raised exception, rendered as its message string. -/
inductive WhoisResponse
  | noData
  | record (status registrar creation_date : Option String) (raw : String)
  | parserError (msg : String)
  | failure (msg : String)
deriving DecidableEq, Repr

/-- The dictionary returned by `_check_whois`.  `available` is the tri-state
`True`/`False`/`None`; keys absent from a given branch of the source are
`none`. -/
structure WhoisResult where
  available : Option Bool
  reason : String
  status : Option String := none
  registrar : Option String := none
  creation_date : Option String := none
  raw_data : Option String := none
deriving DecidableEq, Repr

/-- `str(x)` for an optional field value: Python renders `None` as `"None"`. -/
def strOfOpt : Option String → String
  | some s => s
  | none => "None"

/-- `DomainChecker._check_whois`, as a function of the provider's response.
Mirrors the source's branch order: `whois_data is None`; truthy `status`;
truthy `registrar`; fallback with a 500-character excerpt of
`str(whois_data)`; the two `except` clauses. -/
def _check_whois : WhoisResponse → WhoisResult
  | .noData => { available := some true, reason := "No WHOIS data found" }
  | .record st reg cd raw =>
      if truthy st then
        { available := some false, reason := "Domain has active status",
          status := st, registrar := reg, creation_date := some (strOfOpt cd) }
      else if truthy reg then
        { available := some false, reason := "Domain has registrar",
          registrar := reg }
      else
        { available := none, reason := "WHOIS data exists but unclear status",
          raw_data := some (raw.take 500) }
  | .parserError msg =>
      { available := some true, reason := "WHOIS parser error: " ++ msg }
  | .failure msg =>
      { available := none, reason := "WHOIS lookup failed: " ++ msg }

/-- What `self.dns_resolver.resolve(domain, 'A')` can deliver to the
`resolve_dns` helper: a list of answers (possibly empty), a raised
`dns.resolver.NXDOMAIN`, or any other raised exception (re-raised by the
helper and caught by the outer handler). -/
inductive DnsResponse
  | answers (addrs : List String)
  | nxdomain
  | failure (msg : String)
deriving DecidableEq, Repr

/-- The dictionary returned by `_check_dns_resolution`. -/
structure DnsResult where
  resolvable : Option Bool
  reason : String
  a_records : Option (List String) := none
deriving DecidableEq, Repr

/-- `DomainChecker._check_dns_resolution`, as a function of the resolver's
response.  `NXDOMAIN` makes the helper return `None`, and the source then
tests `if a_records:`, so an empty answer list lands in the same `else`
branch as `NXDOMAIN`. -/
def _check_dns_resolution : DnsResponse → DnsResult
  | .answers addrs =>
      if addrs.isEmpty then
        { resolvable := some false, reason := "Domain does not resolve (NXDOMAIN)" }
      else
        { resolvable := some true, a_records := some addrs,
          reason := "Domain resolves to IP addresses" }
  | .nxdomain =>
      { resolvable := some false, reason := "Domain does not resolve (NXDOMAIN)" }
  | .failure msg =>
      { resolvable := none, reason := "DNS lookup failed: " ++ msg }

/-- The verdict-fusion logic of `check_domain_availability` (the
`if`/`elif`/`else` deciding `results["available"]`): `some true` =
likely available, `some false` = not available, `none` = unclear. -/
def fuse (whois_available dns_resolvable : Option Bool) : Option Bool :=
  if whois_available = some true ∧ dns_resolvable = some false then some true
  else if whois_available = some false then some false
  else none

/-- The result dictionary of `check_domain_availability`, initialised with
every key and filled in as the source proceeds; the `details` dictionary is
split into its two possible keys. -/
structure DomainResult where
  domain : String
  available : Option Bool := none
  whois_available : Option Bool := none
  dns_resolvable : Option Bool := none
  error : Option String := none
  details_whois : Option WhoisResult := none
  details_dns : Option DnsResult := none
deriving DecidableEq, Repr

/-- One execution of the `try` block of `check_domain_availability`.  The two
probes are total, so the outer `except Exception` can only fire at the two
awaited calls themselves (the only suspension points): `failAtWhois` is an
unexpected failure at the first `await`, `failAtDns` one at the second
`await` after the WHOIS probe already returned `w`, and `ok` is a run where
both awaits return normally. -/
inductive EvalStep
  | ok (w : WhoisResponse) (d : DnsResponse)
  | failAtWhois (msg : String)
  | failAtDns (w : WhoisResponse) (msg : String)
deriving DecidableEq, Repr

/-- `DomainChecker.check_domain_availability`: the fields assigned before the
interruption point keep their values, the `except` clause stores the message
in `error`, and a full run fuses the two probe outcomes. -/
def check_domain_availability (domain : String) : EvalStep → DomainResult
  | .failAtWhois msg => { domain := domain, error := some msg }
  | .failAtDns w msg =>
      let wr := _check_whois w
      { domain := domain, whois_available := wr.available,
        details_whois := some wr, error := some msg }
  | .ok w d =>
      let wr := _check_whois w
      let dr := _check_dns_resolution d
      { domain := domain,
        whois_available := wr.available, details_whois := some wr,
        dns_resolvable := dr.resolvable, details_dns := some dr,
        available := fuse wr.available dr.resolvable }

/-- What `asyncio.gather(..., return_exceptions=True)` yields for one
domain's task in `check_multiple_domains`: either the task completed (it ran
`check_domain_availability`, whose own behaviour is fixed by an `EvalStep`),
or the task itself raised and `gather` returned the exception, rendered as
its message string. -/
inductive GatherOutcome
  | completed (step : EvalStep)
  | raised (msg : String)
deriving Repr

/-- One entry of `processed_results` in `check_multiple_domains`: a raised
task is replaced by the defensive dictionary
`{"domain": domains[i], "available": None, "error": str(result)}`, and a
completed task contributes its result unchanged.  `env` assigns to each
domain the behaviour of its evaluation task. -/
def processedResult (env : String → GatherOutcome) (d : String) : DomainResult :=
  match env d with
  | .completed step => check_domain_availability d step
  | .raised msg => { domain := d, available := none, error := some msg }

/-- `check_multiple_domains`, up to the construction of `processed_results`:
the guard `if not domains:` returns the error message string (`Sum.inl` is
that ordinary early `return`, not a raised exception — the source contains
no `raise`); otherwise one task per domain is gathered in input order and
post-processed. -/
def check_multiple_domains (env : String → GatherOutcome) (domains : List String) :
    Sum String (List DomainResult) :=
  if domains.isEmpty then Sum.inl "Error: Domain list is required"
  else Sum.inr (domains.map (processedResult env))

/-- Durations of the two provider calls of one `check_domain_availability`
run, for reasoning about how the source schedules them. -/
structure ProbeDurations where
  whoisDuration : Nat
  dnsDuration : Nat
deriving DecidableEq, Repr

/-- Start time of the WHOIS provider call: it is the first statement of the
`try` block of `check_domain_availability`. -/
def whoisCallStart (_ : ProbeDurations) : Nat := 0

/-- Completion time of the WHOIS provider call. -/
def whoisCallFinish (t : ProbeDurations) : Nat := whoisCallStart t + t.whoisDuration

/-- Start time of the DNS provider call.  In the source,
`dns_result = await self._check_dns_resolution(domain)` is the statement
after `whois_result = await self._check_whois(domain)`, so the DNS call is
only issued once the awaited WHOIS call has completed. -/
def dnsCallStart (t : ProbeDurations) : Nat := whoisCallFinish t

/-- Completion time of the DNS provider call. -/
def dnsCallFinish (t : ProbeDurations) : Nat := dnsCallStart t + t.dnsDuration

/-- Time at which `check_domain_availability` reaches the fusion step: after
both awaited calls have completed. -/
def fusionStart (t : ProbeDurations) : Nat := dnsCallFinish t

/-- The environment in which domain `x`'s evaluation task raises `msg` and
every other domain behaves as in `env`. -/
def raisedAt (env : String → GatherOutcome) (x msg : String) :
    String → GatherOutcome :=
  fun d => if d = x then .raised msg else env d

/-- A fixed environment used to instantiate universally quantified theorems
at concrete inputs. -/
def envRaise : String → GatherOutcome := fun _ => .raised "boom"

/-- A fixed environment in which every domain's evaluation completes with a
registered WHOIS record and a resolving DNS answer. -/
def envOk : String → GatherOutcome :=
  fun _ => .completed (.ok (.record (some "clientTransferProhibited")
      (some "Example Registrar, Inc.") (some "2020-01-01") "raw text")
      (.answers ["93.184.216.34"]))

/-- C1: the verdict fuser is a pure total function of the pair of probe
outcomes (registration: `some true` = Positive, `some false` = Negative,
`none` = Indeterminate; resolution likewise): over all 9 combinations the
verdict is Available (`some true`) exactly for (Positive, Negative),
NotAvailable (`some false`) exactly when registration is Negative, and
Unclear (`none`) in every other case; and `check_domain_availability`
computes its `available` field by exactly this function of the two probe
results. -/
theorem fuse_decision_table :
    fuse (some true) (some false) = some true ∧
    fuse (some true) (some true) = none ∧
    fuse (some true) none = none ∧
    fuse (some false) (some true) = some false ∧
    fuse (some false) (some false) = some false ∧
    fuse (some false) none = some false ∧
    fuse none (some true) = none ∧
    fuse none (some false) = none ∧
    fuse none none = none ∧
    ∀ (domain : String) (w : WhoisResponse) (d : DnsResponse),
      (check_domain_availability domain (.ok w d)).available
        = fuse (_check_whois w).available (_check_dns_resolution d).resolvable := by
  refine ⟨by decide, by decide, by decide, by decide, by decide, by decide,
    by decide, by decide, by decide, ?_⟩
  intro domain w d
  rfl

/-- C7: neither probe propagates a provider failure past its boundary: an
arbitrary failure makes `_check_whois` (resp. `_check_dns_resolution`)
return an Indeterminate outcome (`none`) whose reason carries the failure
text, and the one exception-driven path that is not Indeterminate — the
WHOIS parser's no-such-record error — yields Positive (`some true`) with the
parser error text in the reason.  Both probes are total functions of the
provider response, so no exception escapes. -/
theorem probes_never_propagate (msg : String) :
    (_check_whois (.failure msg)).available = none ∧
    (_check_whois (.failure msg)).reason = "WHOIS lookup failed: " ++ msg ∧
    (_check_dns_resolution (.failure msg)).resolvable = none ∧
    (_check_dns_resolution (.failure msg)).reason = "DNS lookup failed: " ++ msg ∧
    (_check_whois (.parserError msg)).available = some true ∧
    (_check_whois (.parserError msg)).reason = "WHOIS parser error: " ++ msg :=
  ⟨rfl, rfl, rfl, rfl, rfl, rfl⟩

/-- C9: the resolution probe classifies as Positive only for a non-empty
answer list; an empty answer list returned without an exception produces
exactly the same Negative outcome, with the reason
`"Domain does not resolve (NXDOMAIN)"`, as a genuine name-not-found
signal. -/
theorem dns_empty_answers_is_negative (a : String) (as : List String) :
    _check_dns_resolution (.answers []) = _check_dns_resolution .nxdomain ∧
    (_check_dns_resolution (.answers [])).resolvable = some false ∧
    (_check_dns_resolution (.answers [])).reason
      = "Domain does not resolve (NXDOMAIN)" ∧
    (_check_dns_resolution (.answers (a :: as))).resolvable = some true ∧
    (_check_dns_resolution (.answers (a :: as))).a_records = some (a :: as) := by
  refine ⟨rfl, rfl, rfl, ?_, ?_⟩ <;> simp [_check_dns_resolution]

/-- The 500-character excerpt taken in the ambiguous-record branch is
bounded in length. -/
theorem length_take_excerpt (raw : String) : (raw.take 500).length ≤ 500 := by
  rw [String.take_eq]
  show (raw.1.take 500).length ≤ 500
  simp [List.length_take]

/-- C5: the registration probe classifies every provider response by the
stated priority order: no record → Positive with the "no record" reason; a
record with a truthy status → Negative with registrar and creation date as
evidence (whatever the registrar field holds); a record with a truthy
registrar but no truthy status → Negative; any other record → Indeterminate
with a raw excerpt of at most 500 characters; a no-such-record parser error
→ Positive with the parser error text; any other failure → Indeterminate
with the failure text. -/
theorem whois_classification_policy :
    (_check_whois .noData
      = { available := some true, reason := "No WHOIS data found" }) ∧
    (∀ st reg cd raw, truthy st = true →
      _check_whois (.record st reg cd raw)
        = { available := some false, reason := "Domain has active status",
            status := st, registrar := reg,
            creation_date := some (strOfOpt cd) }) ∧
    (∀ st reg cd raw, truthy st = false → truthy reg = true →
      _check_whois (.record st reg cd raw)
        = { available := some false, reason := "Domain has registrar",
            registrar := reg }) ∧
    (∀ st reg cd raw, truthy st = false → truthy reg = false →
      _check_whois (.record st reg cd raw)
        = { available := none, reason := "WHOIS data exists but unclear status",
            raw_data := some (raw.take 500) }
        ∧ (raw.take 500).length ≤ 500) ∧
    (∀ msg, _check_whois (.parserError msg)
      = { available := some true, reason := "WHOIS parser error: " ++ msg }) ∧
    (∀ msg, _check_whois (.failure msg)
      = { available := none, reason := "WHOIS lookup failed: " ++ msg }) := by
  refine ⟨rfl, ?_, ?_, ?_, fun msg => rfl, fun msg => rfl⟩
  · intro st reg cd raw hst
    simp [_check_whois, hst]
  · intro st reg cd raw hst hreg
    simp [_check_whois, hst, hreg]
  · intro st reg cd raw hst hreg
    exact ⟨by simp [_check_whois, hst, hreg], length_take_excerpt raw⟩

/-- C5 witness: the active-status branch with a registrar present, and the
ambiguous-record branch, at concrete records. -/
theorem whois_classification_policy_witness :
    truthy (some "clientTransferProhibited") = true ∧
    _check_whois (.record (some "clientTransferProhibited")
        (some "Example Registrar, Inc.") none "raw text")
      = { available := some false, reason := "Domain has active status",
          status := some "clientTransferProhibited",
          registrar := some "Example Registrar, Inc.",
          creation_date := some "None" } ∧
    truthy (none : Option String) = false ∧
    (_check_whois (.record none none none "mystery record")
        = { available := none, reason := "WHOIS data exists but unclear status",
            raw_data := some (String.take "mystery record" 500) }
      ∧ (String.take "mystery record" 500).length ≤ 500) :=
  ⟨by decide,
   whois_classification_policy.2.1 (some "clientTransferProhibited")
     (some "Example Registrar, Inc.") none "raw text" (by decide),
   by decide,
   whois_classification_policy.2.2.2.1 none none none "mystery record"
     (by decide) (by decide)⟩

/-- C10: a status field that is present but empty does not trigger the
active-status branch: the record behaves exactly as if the field were
absent, falling through to the registrar check; and with the registrar also
absent or empty the record is classified as ambiguous (Indeterminate). -/
theorem empty_status_falls_through (reg cd : Option String) (raw : String) :
    _check_whois (.record (some "") reg cd raw)
      = _check_whois (.record none reg cd raw) ∧
    (truthy reg = false →
      _check_whois (.record (some "") reg cd raw)
        = { available := none, reason := "WHOIS data exists but unclear status",
            raw_data := some (raw.take 500) }) ∧
    (truthy reg = true →
      _check_whois (.record (some "") reg cd raw)
        = { available := some false, reason := "Domain has registrar",
            registrar := reg }) := by
  have h0 : truthy (some "") = false := by decide
  refine ⟨rfl, ?_, ?_⟩ <;> intro hreg <;> simp [_check_whois, h0, hreg]

/-- C10 witness: a record with an empty status and no registrar is
ambiguous; with an empty status and an empty registrar likewise; with an
empty status and a real registrar it is Negative by registrar. -/
theorem empty_status_falls_through_witness :
    truthy (none : Option String) = false ∧
    _check_whois (.record (some "") none none "x")
      = { available := none, reason := "WHOIS data exists but unclear status",
          raw_data := some (String.take "x" 500) } ∧
    truthy (some "") = false ∧
    _check_whois (.record (some "") (some "") none "x")
      = { available := none, reason := "WHOIS data exists but unclear status",
          raw_data := some (String.take "x" 500) } ∧
    truthy (some "Example Registrar, Inc.") = true ∧
    _check_whois (.record (some "") (some "Example Registrar, Inc.") none "x")
      = { available := some false, reason := "Domain has registrar",
          registrar := some "Example Registrar, Inc." } :=
  ⟨by decide, (empty_status_falls_through none none "x").2.1 (by decide),
   by decide, (empty_status_falls_through (some "") none "x").2.1 (by decide),
   by decide,
   (empty_status_falls_through (some "Example Registrar, Inc.") none "x").2.2
     (by decide)⟩

/-- Every value of the tri-state field is one of the three verdicts. -/
theorem option_bool_trichotomy (o : Option Bool) :
    o = some true ∨ o = some false ∨ o = none := by
  rcases o with _ | _ | _
  · right; right; rfl
  · right; left; rfl
  · left; rfl

/-- C6: `check_domain_availability` is a total function (it never raises):
for every domain and every execution of its `try` block it returns exactly
one result carrying that domain, with a verdict among Available,
NotAvailable, Unclear; and when an unexpected failure interrupts the block,
the failure text is stored in the result's `error` field and the verdict is
Unclear (`none`). -/
theorem evaluate_one_total (domain : String) (step : EvalStep) :
    (check_domain_availability domain step).domain = domain ∧
    ((check_domain_availability domain step).available = some true ∨
     (check_domain_availability domain step).available = some false ∨
     (check_domain_availability domain step).available = none) ∧
    (∀ msg, step = .failAtWhois msg →
      (check_domain_availability domain step).error = some msg ∧
      (check_domain_availability domain step).available = none) ∧
    (∀ w msg, step = .failAtDns w msg →
      (check_domain_availability domain step).error = some msg ∧
      (check_domain_availability domain step).available = none) := by
  refine ⟨?_, option_bool_trichotomy _, ?_, ?_⟩
  · cases step <;> rfl
  · intro msg hmsg
    subst hmsg
    exact ⟨rfl, rfl⟩
  · intro w msg hmsg
    subst hmsg
    exact ⟨rfl, rfl⟩

/-- C6 witness: an unexpected failure at the first awaited call yields a
result with the failure text and an Unclear verdict. -/
theorem evaluate_one_total_witness :
    (check_domain_availability "example.com"
        (.failAtWhois "event loop unavailable")).error
      = some "event loop unavailable" ∧
    (check_domain_availability "example.com"
        (.failAtWhois "event loop unavailable")).available = none :=
  (evaluate_one_total "example.com"
      (.failAtWhois "event loop unavailable")).2.2.1
    "event loop unavailable" rfl

/-- Each processed entry carries the domain it was requested for, whether
its task completed (in any way) or raised. -/
theorem processedResult_domain (env : String → GatherOutcome) (d : String) :
    (processedResult env d).domain = d := by
  unfold processedResult
  cases env d with
  | completed step => cases step <;> rfl
  | raised msg => rfl

/-- A non-empty list is not `isEmpty`. -/
theorem isEmpty_false_of_ne_nil {α : Type} {l : List α} (h : l ≠ []) :
    l.isEmpty = false := by
  cases l with
  | nil => exact absurd rfl h
  | cons a as => rfl

/-- C2 counterexample: on the empty list `check_multiple_domains` does not
raise anything — its body contains no `raise` statement — it takes the early
`return` and hands the caller the message `"Error: Domain list is required"`
as an ordinary returned value (`Sum.inl`), not a hard failure. -/
theorem empty_batch_counterexample :
    check_multiple_domains envRaise [] = Sum.inl "Error: Domain list is required" :=
  rfl

/-- C2 amended: for the empty input list `check_multiple_domains` returns
the error message string `"Error: Domain list is required"` as its ordinary
result, without evaluating any domain, and the empty list is the only input
treated this way — every non-empty list yields a list of per-domain
results. -/
theorem empty_batch_returns_message (env : String → GatherOutcome)
    (domains : List String) :
    (domains = [] →
      check_multiple_domains env domains
        = Sum.inl "Error: Domain list is required") ∧
    (domains ≠ [] →
      ∃ rs, check_multiple_domains env domains = Sum.inr rs) := by
  constructor
  · intro h
    subst h
    rfl
  · intro h
    exact ⟨domains.map (processedResult env),
      by simp [check_multiple_domains, isEmpty_false_of_ne_nil h]⟩

/-- C2 witness: the empty batch returns the message; a singleton batch
returns a result list. -/
theorem empty_batch_returns_message_witness :
    check_multiple_domains envOk [] = Sum.inl "Error: Domain list is required" ∧
    ∃ rs, check_multiple_domains envOk ["example.com"] = Sum.inr rs :=
  ⟨(empty_batch_returns_message envOk []).1 rfl,
   (empty_batch_returns_message envOk ["example.com"]).2 (by simp)⟩

/-- C3: for every non-empty list of N domains, `check_multiple_domains`
produces exactly N per-domain results, and the result at each position
carries the domain at the same position of the input — no domain is dropped
or reordered, whether its task completed or raised. -/
theorem batch_length_and_order (env : String → GatherOutcome)
    (domains : List String) (h : domains ≠ []) :
    ∃ rs, check_multiple_domains env domains = Sum.inr rs ∧
      rs.length = domains.length ∧
      ∀ (i : Nat) (hi : i < rs.length) (hj : i < domains.length),
        (rs.get ⟨i, hi⟩).domain = domains.get ⟨i, hj⟩ := by
  refine ⟨domains.map (processedResult env),
    by simp [check_multiple_domains, isEmpty_false_of_ne_nil h], by simp, ?_⟩
  intro i hi hj
  simp [List.get_eq_getElem, List.getElem_map, processedResult_domain]

/-- C3 witness: a two-domain batch, one task raising and one completing,
yields two results in input order. -/
theorem batch_length_and_order_witness :
    (["alpha.com", "beta.com"] : List String) ≠ [] ∧
    ∃ rs, check_multiple_domains envRaise ["alpha.com", "beta.com"] = Sum.inr rs ∧
      rs.length = (["alpha.com", "beta.com"] : List String).length ∧
      ∀ (i : Nat) (hi : i < rs.length)
        (hj : i < (["alpha.com", "beta.com"] : List String).length),
        (rs.get ⟨i, hi⟩).domain = (["alpha.com", "beta.com"] : List String).get ⟨i, hj⟩ :=
  ⟨by simp, batch_length_and_order envRaise ["alpha.com", "beta.com"] (by simp)⟩

/-- C4: one domain's failure is isolated: if domain `x`'s task raises
unexpectedly, its slots in the result list are replaced by the defensive
record carrying `x`, an Unclear verdict (`available = none`) and the error
text, while every position holding a different domain gets exactly the
result it would have had without that failure; the batch itself still
returns a full result list. -/
theorem batch_failure_isolation (env : String → GatherOutcome)
    (x msg : String) (domains : List String) (h : domains ≠ []) :
    ∃ rs rs',
      check_multiple_domains env domains = Sum.inr rs ∧
      check_multiple_domains (raisedAt env x msg) domains = Sum.inr rs' ∧
      rs.length = domains.length ∧ rs'.length = domains.length ∧
      ∀ (i : Nat) (hi : i < rs.length) (hi' : i < rs'.length)
        (hj : i < domains.length),
        (domains.get ⟨i, hj⟩ ≠ x → rs'.get ⟨i, hi'⟩ = rs.get ⟨i, hi⟩) ∧
        (domains.get ⟨i, hj⟩ = x →
          rs'.get ⟨i, hi'⟩
            = { domain := x, available := none, error := some msg }) := by
  refine ⟨domains.map (processedResult env),
    domains.map (processedResult (raisedAt env x msg)),
    by simp [check_multiple_domains, isEmpty_false_of_ne_nil h],
    by simp [check_multiple_domains, isEmpty_false_of_ne_nil h],
    by simp, by simp, ?_⟩
  intro i hi hi' hj
  constructor
  · intro hne
    simp only [List.get_eq_getElem, List.getElem_map] at hne ⊢
    simp [processedResult, raisedAt, hne]
  · intro heq
    simp only [List.get_eq_getElem, List.getElem_map] at heq ⊢
    simp [processedResult, raisedAt, heq]

/-- C4 witness: a three-domain batch in which the middle domain's task
raises: the middle slot is the defensive Unclear record with the error text,
and the outer slots equal the results of the failure-free batch. -/
theorem batch_failure_isolation_witness :
    (["alpha.com", "beta.com", "gamma.com"] : List String) ≠ [] ∧
    ∃ rs rs',
      check_multiple_domains envOk ["alpha.com", "beta.com", "gamma.com"]
        = Sum.inr rs ∧
      check_multiple_domains (raisedAt envOk "beta.com" "socket timeout")
        ["alpha.com", "beta.com", "gamma.com"] = Sum.inr rs' ∧
      rs.length = (["alpha.com", "beta.com", "gamma.com"] : List String).length ∧
      rs'.length = (["alpha.com", "beta.com", "gamma.com"] : List String).length ∧
      ∀ (i : Nat) (hi : i < rs.length) (hi' : i < rs'.length)
        (hj : i < (["alpha.com", "beta.com", "gamma.com"] : List String).length),
        ((["alpha.com", "beta.com", "gamma.com"] : List String).get ⟨i, hj⟩
            ≠ "beta.com" → rs'.get ⟨i, hi'⟩ = rs.get ⟨i, hi⟩) ∧
        ((["alpha.com", "beta.com", "gamma.com"] : List String).get ⟨i, hj⟩
            = "beta.com" →
          rs'.get ⟨i, hi'⟩
            = { domain := "beta.com", available := none,
                error := some "socket timeout" }) :=
  ⟨by simp,
   batch_failure_isolation envOk "beta.com" "socket timeout"
     ["alpha.com", "beta.com", "gamma.com"] (by simp)⟩

/-- C8 counterexample: with a WHOIS call lasting 7 time-units and a DNS call
lasting 3, the DNS provider call starts at time 7 — when the awaited WHOIS
call completes — not at time 0 alongside the WHOIS call: in
`check_domain_availability` the two probes are awaited one after the other,
so the registration probe's execution does block the resolution probe's
start. -/
theorem probes_not_concurrent_counterexample :
    dnsCallStart ⟨7, 3⟩ = 7 ∧ whoisCallStart ⟨7, 3⟩ = 0 ∧
    dnsCallStart ⟨7, 3⟩ ≠ whoisCallStart ⟨7, 3⟩ :=
  ⟨rfl, rfl, by decide⟩

/-- C8 amended: within the evaluation of a single domain the two probes run
sequentially, not in parallel: the resolution probe starts exactly when the
registration probe's awaited call completes, the evaluator reaches fusion
only after both calls have completed, and the time to reach fusion is the
sum (not the maximum) of the two probe durations. -/
theorem probes_sequential (t : ProbeDurations) :
    dnsCallStart t = whoisCallFinish t ∧
    whoisCallFinish t ≤ fusionStart t ∧
    dnsCallFinish t ≤ fusionStart t ∧
    fusionStart t = t.whoisDuration + t.dnsDuration := by
  refine ⟨rfl, ?_, le_refl _, ?_⟩ <;>
    simp [fusionStart, dnsCallFinish, dnsCallStart, whoisCallFinish,
      whoisCallStart]

end DomainChecker
